import Mathlib

/-
Formal model of the Midterm calculator project: the calculation record and its
serialization (app/calculation.py), the snapshot-based undo/redo manager
(app/calculator_memento.py), the application-level history actions
(app/calculator.py), and the three operation registries found in the source
(app/operations.py, app/logger.py, and the dispatch table inside
app/calculation.py). Decimal operands are modelled as rational numbers;
Decimal string conversion is exact, so serialized numbers are modelled by
their values. Calls to floating point pow are kept symbolic, recording the
expression the code computes.
-/

namespace Midterm

/-- Errors raised by the Python code, distinguished by exception class. -/
inductive PyError where
  | operationError (msg : String)
  | validationError (msg : String)
  | historyError (msg : String)
  | typeError (msg : String)
deriving DecidableEq, Repr

/-- Result of an arithmetic operation: exact decimal arithmetic is carried by
a rational value; a call to floating point pow is kept symbolic as
fpow base exp. -/
inductive Value where
  | num (q : ℚ)
  | fpow (base exp : ℚ)
deriving DecidableEq, Repr

/-- Rounding toward zero, the rounding used by Decimal remainder and Decimal
floor division in Python. -/
def ratTrunc (q : ℚ) : ℤ := if 0 ≤ q then ⌊q⌋ else ⌈q⌉

/-- Decimal remainder: x - y * trunc(x / y), same sign as the dividend. -/
def decMod (x y : ℚ) : ℚ := x - y * (ratTrunc (x / y) : ℚ)

/-- Python float remainder: x - y * floor(x / y), same sign as the divisor. -/
def floatMod (x y : ℚ) : ℚ := x - y * (⌊x / y⌋ : ℚ)

/-- Whether a Decimal or float value is an integer; this is what the checks
b % 1 != 0 in the source decide. -/
def isIntegral (q : ℚ) : Bool := q.den == 1

/-- Whether a float y satisfies y % 2 == 0, i.e. y is an even integer. -/
def isEvenNumber (q : ℚ) : Bool := q.den == 1 && q.num % 2 == 0

/-- A calculation record (app/calculation.py): dataclass with operation name,
two Decimal operands, a Decimal result and a timestamp. The timestamp is
modelled by a natural number. -/
structure Calculation where
  operation : String
  operand1 : ℚ
  operand2 : ℚ
  result : ℚ
  timestamp : ℕ
deriving DecidableEq, Repr

/-- Record equality as defined by the manual __eq__ of Calculation: operation,
operands and result are compared, the timestamp is ignored. -/
def Calculation.eqPy (c d : Calculation) : Bool :=
  c.operation == d.operation && c.operand1 == d.operand1 &&
    c.operand2 == d.operand2 && c.result == d.result

/-- The error chosen by Calculation._raise_invalid_root (app/calculation.py
lines 76 - 82). -/
def raiseInvalidRoot (x y : ℚ) : PyError :=
  if y = 0 then .operationError "Zero root is undefined"
  else if x < 0 then .operationError "Cannot calculate root of negative number"
  else .operationError "Invalid root operation"

/-- Calculation.calculate (app/calculation.py lines 36 - 66): the dispatch
table from operation name to a lambda over the two Decimal operands. Division
by zero checks guard Division, Modulus, IntegerDivision and Percentage; Power
rejects negative exponents; Root rejects a negative radicand or a zero index. -/
def Calculation.calculate (operation : String) (x y : ℚ) : Except PyError Value :=
  if operation = "Addition" then .ok (.num (x + y))
  else if operation = "Subtraction" then .ok (.num (x - y))
  else if operation = "Multiplication" then .ok (.num (x * y))
  else if operation = "Division" then
    if y ≠ 0 then .ok (.num (x / y))
    else .error (.operationError "Division by zero is not allowed")
  else if operation = "Power" then
    if 0 ≤ y then .ok (.fpow x y)
    else .error (.operationError "Negative exponents are not supported")
  else if operation = "Root" then
    if 0 ≤ x ∧ y ≠ 0 then .ok (.fpow x (1 / y))
    else .error (raiseInvalidRoot x y)
  else if operation = "Modulus" then
    if y ≠ 0 then .ok (.num (decMod x y))
    else .error (.operationError "Division by zero is not allowed")
  else if operation = "IntegerDivision" then
    if y ≠ 0 then .ok (.num (ratTrunc (x / y) : ℚ))
    else .error (.operationError "Division by zero is not allowed")
  else if operation = "Percentage" then
    if y ≠ 0 then .ok (.num (x / y * 100))
    else .error (.operationError "Division by zero is not allowed")
  else if operation = "AbsoluteDifference" then .ok (.num |x - y|)
  else .error (.operationError ("Unknown operation: " ++ operation))

/-- The dict produced by Calculation.to_dict. Operands and result are
serialized with str() and parsed back with Decimal(), an exact round trip, so
the serialized numbers are modelled by their values; likewise the isoformat
timestamp. -/
structure CalcDict where
  operation : String
  operand1 : ℚ
  operand2 : ℚ
  result : ℚ
  timestamp : ℕ
deriving DecidableEq, Repr

/-- Calculation.to_dict (app/calculation.py lines 84 - 91). -/
def Calculation.to_dict (c : Calculation) : CalcDict :=
  { operation := c.operation, operand1 := c.operand1, operand2 := c.operand2,
    result := c.result, timestamp := c.timestamp }

/-- Parameters of the __init__ generated by the dataclass decorator for
Calculation: operation, operand1, operand2 and timestamp. The result field is
declared with field(init=False), so it is not a parameter of __init__. -/
def dataclassInitParams : List String :=
  ["operation", "operand1", "operand2", "timestamp"]

/-- Keyword arguments that Calculation.from_dict passes to the constructor
call Calculation(operation=..., operand1=..., operand2=..., result=...). -/
def fromDictKwargs : List String :=
  ["operation", "operand1", "operand2", "result"]

/-- Calculation.from_dict (app/calculation.py lines 93 - 105). The body calls
the generated constructor with the keywords of fromDictKwargs; a keyword that
is not an __init__ parameter raises TypeError in Python before the constructor
body runs, and the except clause of from_dict catches only KeyError,
InvalidOperation and ValueError, so the TypeError propagates to the caller. -/
def Calculation.from_dict (data : CalcDict) : Except PyError Calculation :=
  if fromDictKwargs.all (fun k => dataclassInitParams.contains k) then
    .ok { operation := data.operation, operand1 := data.operand1,
          operand2 := data.operand2, result := data.result,
          timestamp := data.timestamp }
  else
    .error (.typeError "init got an unexpected keyword argument result")

/-- A history of calculation records. A HistorySnapshot stores a deep copy of
such a list and retrieve returns a deep copy again; deep copies are identities
on values, so a snapshot is modelled by the list itself. -/
abbrev Hist := List Calculation

/-- UndoRedoManager (app/calculator_memento.py): two stacks of history
snapshots. Python pushes and pops at the right end of the backing list; the
stack is modelled with the head of the list as its top. -/
structure UndoRedoManager where
  undo_stack : List Hist
  redo_stack : List Hist
deriving DecidableEq, Repr

/-- UndoRedoManager.undo (app/calculator_memento.py lines 38 - 59): raise
HistoryError if the undo stack is empty; otherwise push a snapshot of the
current history onto the redo stack, pop the undo stack and return the popped
snapshot. Methods return the mutated object alongside the outcome, since a
raise leaves any mutations already performed in place; here the emptiness
check precedes every mutation. -/
def UndoRedoManager.undo (m : UndoRedoManager) (current_history : Hist) :
    UndoRedoManager × Except PyError Hist :=
  match m.undo_stack with
  | [] => (m, .error (.historyError "No operations to undo"))
  | previous :: rest =>
      ({ undo_stack := rest, redo_stack := current_history :: m.redo_stack },
       .ok previous)

/-- UndoRedoManager.redo (app/calculator_memento.py lines 61 - 76): raise
HistoryError if the redo stack is empty; otherwise pop the top snapshot of the
redo stack, push that same snapshot onto the undo stack, and return it. The
method takes no current-state argument. -/
def UndoRedoManager.redo (m : UndoRedoManager) :
    UndoRedoManager × Except PyError Hist :=
  match m.redo_stack with
  | [] => (m, .error (.historyError "No operations to redo"))
  | next_state :: rest =>
      ({ undo_stack := next_state :: m.undo_stack, redo_stack := rest },
       .ok next_state)

/-- UndoRedoManager.record_state (app/calculator_memento.py lines 78 - 88):
push a snapshot of the current history onto the undo stack and clear the redo
stack. -/
def UndoRedoManager.record_state (m : UndoRedoManager) (current_history : Hist) :
    UndoRedoManager :=
  { undo_stack := current_history :: m.undo_stack, redo_stack := [] }

/-- UndoRedoManager.reset (app/calculator_memento.py lines 92 - 95): clear
both stacks. -/
def UndoRedoManager.reset (_m : UndoRedoManager) : UndoRedoManager :=
  { undo_stack := [], redo_stack := [] }

/-- The redo operation as the spec words it in section 4.4, written from the
spec for comparison with UndoRedoManager.redo: fail if the redo stack is
empty; otherwise push a deep copy of currentState onto the undo stack, then
pop and return the top of the redo stack. -/
def specRedo (m : UndoRedoManager) (currentState : Hist) :
    UndoRedoManager × Except PyError Hist :=
  match m.redo_stack with
  | [] => (m, .error (.historyError "nothing to redo"))
  | next_state :: rest =>
      ({ undo_stack := currentState :: m.undo_stack, redo_stack := rest },
       .ok next_state)

/-- Modelled from the spec: class CalculationHistory is imported from
app.history by app/calculator.py, but the class is absent from src (history.py
holds only observer classes). The spec describes the History Store as an
insertion-ordered sequence of records bounded to a configured maximum size,
with the oldest record evicted first on overflow (FIFO). -/
structure CalculationHistory where
  max_size : ℕ
  _history : List Calculation
deriving DecidableEq, Repr

/-- Modelled from the spec: add appends the record and evicts the oldest
record when the store exceeds its capacity. -/
def CalculationHistory.add_calculation (h : CalculationHistory) (c : Calculation) :
    CalculationHistory :=
  let appended := h._history ++ [c]
  { h with _history := if h.max_size < appended.length then appended.tail else appended }

/-- Modelled from the spec: clear empties the store. -/
def CalculationHistory.clear_history (h : CalculationHistory) : CalculationHistory :=
  { h with _history := [] }

/-- Modelled from the spec: get_history returns a copy of the stored records;
copies are identities on values. -/
def CalculationHistory.get_history (h : CalculationHistory) : Hist := h._history

/-- CalculatorApp state (app/calculator.py): the bounded history store and the
undo/redo manager. The config, logger and watcher fields carry no history
state and are elided. -/
structure CalculatorApp where
  history : CalculationHistory
  undo_manager : UndoRedoManager
deriving DecidableEq, Repr

/-- CalculatorApp.execute_operation, successful path (app/calculator.py lines
88 - 115): record_state on the current history, which clears the redo stack,
then add the computed calculation to the store. Input validation and the
arithmetic itself are elided; record_state runs before them, so even a failing
operation has already recorded state. -/
def CalculatorApp.execute_operation (app : CalculatorApp) (c : Calculation) :
    CalculatorApp :=
  { history := app.history.add_calculation c,
    undo_manager := app.undo_manager.record_state app.history.get_history }

/-- CalculatorApp.undo (app/calculator.py lines 119 - 126): on success the
store contents are replaced by the restored history; a HistoryError is caught
and printed, leaving the state unchanged. -/
def CalculatorApp.undo (app : CalculatorApp) : CalculatorApp :=
  match app.undo_manager.undo app.history.get_history with
  | (m, .ok restored) =>
      { history := { app.history with _history := restored }, undo_manager := m }
  | (m, .error _) => { app with undo_manager := m }

/-- CalculatorApp.redo (app/calculator.py lines 128 - 135): on success the
store contents are replaced by the restored history; a HistoryError is caught
and printed, leaving the state unchanged. -/
def CalculatorApp.redo (app : CalculatorApp) : CalculatorApp :=
  match app.undo_manager.redo with
  | (m, .ok restored) =>
      { history := { app.history with _history := restored }, undo_manager := m }
  | (m, .error _) => { app with undo_manager := m }

/-- CalculatorApp.clear_history (app/calculator.py lines 142 - 146): empty the
store, then reset the undo/redo manager, clearing both of its stacks. No
snapshot is recorded. -/
def CalculatorApp.clear_history (app : CalculatorApp) : CalculatorApp :=
  { history := app.history.clear_history, undo_manager := app.undo_manager.reset }

/-- CalculatorApp.load_history (app/calculator.py lines 156 - 162): calls only
self.history.load_from_csv and logs; the undo manager is never touched.
load_from_csv belongs to the absent CalculationHistory and is modelled from
the spec as replacing the store contents with the records read from the file. -/
def CalculatorApp.load_history (app : CalculatorApp) (loaded : Hist) : CalculatorApp :=
  { app with history := { app.history with _history := loaded } }

/-- A concrete record: Addition of 2 and 3. -/
def calcA : Calculation := ⟨"Addition", 2, 3, 5, 0⟩

/-- A concrete record: Subtraction of 3 from 5. -/
def calcB : Calculation := ⟨"Subtraction", 5, 3, 2, 1⟩

/-- A concrete record: Addition of 10 and 10. -/
def calcC : Calculation := ⟨"Addition", 10, 10, 20, 2⟩

/-- A concrete record: Subtraction of 10 from 20. -/
def calcD : Calculation := ⟨"Subtraction", 20, 10, 10, 3⟩

/-- A fresh session: store of capacity 3, both manager stacks empty. -/
def appEmpty : CalculatorApp := ⟨⟨3, []⟩, ⟨[], []⟩⟩

/-- Division (app/operations.py lines 47 - 55): validate_operands raises
ValidationError when b = 0, else exact Decimal division. -/
def Division.execute (a b : ℚ) : Except PyError Value :=
  if b = 0 then .error (.validationError "Division by zero is not allowed")
  else .ok (.num (a / b))

/-- Power (app/operations.py lines 58 - 66): validate_operands raises
ValidationError when a < 0 and b % 1 is nonzero, else
Decimal(pow(float(a), float(b))). -/
def Power.execute (a b : ℚ) : Except PyError Value :=
  if a < 0 ∧ isIntegral b = false then
    .error (.validationError "Cannot raise negative base to fractional exponent")
  else .ok (.fpow a b)

/-- Root (app/operations.py lines 69 - 79): validate_operands raises
ValidationError for any negative radicand, then for a zero index, else
Decimal(pow(float(a), 1 / float(b))). -/
def Root.execute (a b : ℚ) : Except PyError Value :=
  if a < 0 then .error (.validationError "Cannot calculate root of negative number")
  else if b = 0 then .error (.validationError "Zero root is undefined")
  else .ok (.fpow a (1 / b))

/-- Modulus (app/operations.py lines 84 - 88): raises ValidationError when
b = 0, else the Decimal remainder, which truncates. -/
def Modulus.execute (a b : ℚ) : Except PyError Value :=
  if b = 0 then .error (.validationError "Modulus by zero is not allowed")
  else .ok (.num (decMod a b))

/-- IntegerDivision (app/operations.py lines 91 - 95): raises ValidationError
when b = 0, else Decimal floor division, which truncates toward zero. -/
def IntegerDivision.execute (a b : ℚ) : Except PyError Value :=
  if b = 0 then .error (.validationError "Integer division by zero is not allowed")
  else .ok (.num (ratTrunc (a / b) : ℚ))

/-- Percentage (app/operations.py lines 98 - 102): raises ValidationError when
b = 0, else (a / b) * 100. -/
def Percentage.execute (a b : ℚ) : Except PyError Value :=
  if b = 0 then .error (.validationError "Cannot calculate percentage with denominator zero")
  else .ok (.num (a / b * 100))

/-- DivideOp (app/logger.py lines 45 - 52): raises OperationError when y = 0,
else float division. -/
def DivideOp.execute (x y : ℚ) : Except PyError Value :=
  if y = 0 then .error (.operationError "Division by zero is not allowed")
  else .ok (.num (x / y))

/-- IntDivideOp (app/logger.py lines 54 - 61): raises OperationError when
y = 0, else float floor division. -/
def IntDivideOp.execute (x y : ℚ) : Except PyError Value :=
  if y = 0 then .error (.operationError "Cannot divide by zero")
  else .ok (.num (⌊x / y⌋ : ℚ))

/-- ModulusOp (app/logger.py lines 63 - 70): raises OperationError when y = 0,
else the float remainder, which floors. -/
def ModulusOp.execute (x y : ℚ) : Except PyError Value :=
  if y = 0 then .error (.operationError "Modulo by zero is invalid")
  else .ok (.num (floatMod x y))

/-- PowerOp (app/logger.py lines 72 - 80): x ** y with OverflowError and
ValueError wrapped into OperationError; the pow call is kept symbolic. -/
def PowerOp.execute (x y : ℚ) : Except PyError Value :=
  .ok (.fpow x y)

/-- RootOp (app/logger.py lines 82 - 91): raises OperationError when y = 0,
then when x < 0 and y % 2 == 0, else x ** (1 / y). -/
def RootOp.execute (x y : ℚ) : Except PyError Value :=
  if y = 0 then .error (.operationError "Cannot calculate 0th root")
  else if x < 0 ∧ isEvenNumber y = true then
    .error (.operationError "Even root of negative number is invalid")
  else .ok (.fpow x (1 / y))

/-- PercentOp (app/logger.py lines 93 - 100): raises OperationError when
y = 0, else (x / y) * 100. -/
def PercentOp.execute (x y : ℚ) : Except PyError Value :=
  if y = 0 then .error (.operationError "Cannot calculate percentage with denominator zero")
  else .ok (.num (x / y * 100))

deriving instance DecidableEq for Except

/-- Whether an operation outcome is a raised error. -/
def fails (r : Except PyError Value) : Bool :=
  match r with
  | .error _ => true
  | .ok _ => false

/-- C1: for every manager state with an available undo and every current
history S, performing undo and then redo on the resulting manager returns
exactly S, the state that was current immediately before the undo. -/
theorem undo_then_redo_restores_current (m : UndoRedoManager) (S : Hist)
    (h : m.undo_stack ≠ []) :
    (((m.undo S).1).redo).2 = .ok S := by
  cases hm : m.undo_stack with
  | nil => exact absurd hm h
  | cons p rest =>
      simp [UndoRedoManager.undo, UndoRedoManager.redo, hm]

/-- Witness for C1 at a concrete manager and history. -/
theorem undo_then_redo_restores_current_witness :
    ((UndoRedoManager.mk [[]] []).undo_stack ≠ []) ∧
    ((((UndoRedoManager.mk [[]] []).undo [calcA]).1).redo).2 = .ok [calcA] :=
  ⟨by decide, undo_then_redo_restores_current (UndoRedoManager.mk [[]] []) [calcA] (by decide)⟩

/-- C2 as stated is false: with the redo stack holding the snapshot [calcA]
and current state [], the spec redo pushes the current state [] onto the undo
stack, while the code redo pushes the popped snapshot [calcA] instead. -/
theorem redo_pushes_popped_snapshot_cex :
    ((specRedo (UndoRedoManager.mk [] [[calcA]]) []).1.undo_stack = [([] : Hist)]) ∧
    (((UndoRedoManager.mk [] [[calcA]]).redo).1.undo_stack = [[calcA]]) ∧
    ([([] : Hist)] ≠ [[calcA]]) := by
  refine ⟨rfl, rfl, by decide⟩

/-- C2 amended: redo takes no current-state argument; with an empty redo stack
it raises HistoryError and leaves the manager unchanged; otherwise it pops the
top snapshot of the redo stack, pushes that same popped snapshot, not the
current state, onto the undo stack, and returns it. -/
theorem redo_behaviour (m : UndoRedoManager) :
    (m.redo_stack = [] →
      m.redo = (m, .error (.historyError "No operations to redo"))) ∧
    (∀ t rest, m.redo_stack = t :: rest →
      m.redo = (UndoRedoManager.mk (t :: m.undo_stack) rest, .ok t)) := by
  obtain ⟨u, r⟩ := m
  constructor
  · rintro rfl
    rfl
  · rintro t rest rfl
    rfl

/-- Witness for C2 amended, at an empty and at a singleton redo stack. -/
theorem redo_behaviour_witness :
    (UndoRedoManager.mk [] []).redo
        = (UndoRedoManager.mk [] [], .error (.historyError "No operations to redo")) ∧
    (UndoRedoManager.mk [] [[calcA]]).redo
        = (UndoRedoManager.mk [[calcA]] [], .ok [calcA]) :=
  ⟨(redo_behaviour (UndoRedoManager.mk [] [])).1 rfl,
   (redo_behaviour (UndoRedoManager.mk [] [[calcA]])).2 [calcA] [] rfl⟩

/-- C3 as stated is false for load: starting from a fresh session, add calcA,
undo, then load [calcB]; the redo stack still holds the snapshot produced by
the undo, so load did not clear the redo stack. -/
theorem load_does_not_clear_redo_cex :
    ((((appEmpty.execute_operation calcA).undo).load_history [calcB]).undo_manager.redo_stack
        ≠ []) := by
  decide

/-- C3 amended: execute_operation and clear_history clear the redo stack, and
in particular an add performed after an undo leaves the redo stack empty; but
load_history leaves the undo/redo manager untouched, so past redo history
survives a load. -/
theorem mutating_actions_and_redo_stack (app : CalculatorApp) (c : Calculation)
    (loaded : Hist) :
    ((app.execute_operation c).undo_manager.redo_stack = []) ∧
    ((app.clear_history).undo_manager.redo_stack = []) ∧
    (((app.undo).execute_operation c).undo_manager.redo_stack = []) ∧
    ((app.load_history loaded).undo_manager = app.undo_manager) :=
  ⟨rfl, rfl, rfl, rfl⟩

/-- C5 as stated is false: clearing a session whose store holds [calcA] leaves
the undo stack empty; the snapshot of the pre-clear state was not pushed, and
the snapshot recorded by the earlier add was even discarded, so the clear
cannot be undone. -/
theorem clear_pushes_no_snapshot_cex :
    (((appEmpty.execute_operation calcA).history)._history = [calcA]) ∧
    ((appEmpty.execute_operation calcA).undo_manager.undo_stack ≠ []) ∧
    (((appEmpty.execute_operation calcA).clear_history).undo_manager.undo_stack = []) := by
  refine ⟨by decide, by decide, rfl⟩

/-- C5 amended: clear_history empties the history store and resets the
undo/redo manager, clearing both stacks unconditionally; no snapshot is
pushed, so a clear is not undoable, whether or not the store was empty. -/
theorem clear_history_resets_everything (app : CalculatorApp) :
    (app.clear_history).history._history = [] ∧
    (app.clear_history).undo_manager = UndoRedoManager.mk [] [] :=
  ⟨rfl, rfl⟩

/-- C10: undo called with an empty undo stack and redo called with an empty
redo stack raise HistoryError and return the manager exactly as it was, both
stacks unchanged; the emptiness check precedes every mutation. -/
theorem empty_stack_error_preserves_state (m : UndoRedoManager) (S : Hist) :
    (m.undo_stack = [] →
      m.undo S = (m, .error (.historyError "No operations to undo"))) ∧
    (m.redo_stack = [] →
      m.redo = (m, .error (.historyError "No operations to redo"))) := by
  obtain ⟨u, r⟩ := m
  constructor
  · rintro rfl
    rfl
  · rintro rfl
    rfl

/-- Witness for C10 at the empty manager and a nonempty current history. -/
theorem empty_stack_error_preserves_state_witness :
    (UndoRedoManager.mk [] []).undo [calcA]
        = (UndoRedoManager.mk [] [], .error (.historyError "No operations to undo")) ∧
    (UndoRedoManager.mk [] []).redo
        = (UndoRedoManager.mk [] [], .error (.historyError "No operations to redo")) :=
  ⟨(empty_stack_error_preserves_state (UndoRedoManager.mk [] []) [calcA]).1 rfl,
   (empty_stack_error_preserves_state (UndoRedoManager.mk [] []) [calcA]).2 rfl⟩

/-- One add preserves the capacity field and the size bound of the store. -/
theorem add_calculation_step (h : CalculationHistory) (c : Calculation) :
    (h.add_calculation c).max_size = h.max_size ∧
    (h._history.length ≤ h.max_size →
      (h.add_calculation c)._history.length ≤ h.max_size) := by
  refine ⟨rfl, fun hle => ?_⟩
  simp only [CalculationHistory.add_calculation]
  split_ifs with hover
  · simp only [List.length_tail, List.length_append, List.length_singleton]
    omega
  · simp only [List.length_append, List.length_singleton] at hover ⊢
    omega

/-- C4: over any sequence of adds the store never holds more records than its
capacity, and an add to a full store evicts exactly the oldest record before
appending the new one (FIFO). -/
theorem history_store_bounded_fifo (h : CalculationHistory) (cs : List Calculation)
    (hle : h._history.length ≤ h.max_size) :
    ((cs.foldl CalculationHistory.add_calculation h)._history.length ≤ h.max_size) ∧
    (∀ c, h._history.length = h.max_size → 0 < h.max_size →
      (h.add_calculation c)._history = h._history.tail ++ [c]) := by
  constructor
  · induction cs generalizing h with
    | nil => exact hle
    | cons c cs ih =>
        have step := add_calculation_step h c
        have hrec := ih (h.add_calculation c) (step.2 hle)
        rw [step.1] at hrec
        simpa using hrec
  · intro c hfull hpos
    obtain ⟨ms, l⟩ := h
    simp only at hfull hpos
    cases l with
    | nil => simp at hfull; omega
    | cons a as =>
        simp only [CalculationHistory.add_calculation]
        rw [if_pos]
        · simp
        · simp at hfull ⊢
          omega

/-- Witness for C4: capacity 3, adding calcA, calcB, calcC, calcD from an
empty store leaves exactly [calcB, calcC, calcD]. -/
theorem history_store_bounded_fifo_witness :
    (([calcA, calcB, calcC, calcD].foldl CalculationHistory.add_calculation
        (CalculationHistory.mk 3 []))._history = [calcB, calcC, calcD]) ∧
    (([calcA, calcB, calcC, calcD].foldl CalculationHistory.add_calculation
        (CalculationHistory.mk 3 []))._history.length ≤ 3) ∧
    (((CalculationHistory.mk 3 [calcA, calcB, calcC]).add_calculation calcD)._history
        = [calcA, calcB, calcC].tail ++ [calcD]) := by
  refine ⟨by decide, ?_, ?_⟩
  · exact (history_store_bounded_fifo (CalculationHistory.mk 3 [])
      [calcA, calcB, calcC, calcD] (by decide)).1
  · exact (history_store_bounded_fifo (CalculationHistory.mk 3 [calcA, calcB, calcC])
      [] (by decide)).2 calcD (by decide) (by decide)

/-- C6: the code contradicts the claim. from_dict passes the keyword result to
the generated constructor, which does not accept it because the result field
is declared with init=False, so reconstructing the serialized form of any
record raises TypeError instead of returning an equal record. -/
theorem from_dict_of_to_dict_raises (c : Calculation) :
    Calculation.from_dict (Calculation.to_dict c)
      = .error (.typeError "init got an unexpected keyword argument result") := rfl

/-- C7 as stated is false: the registry Root rejects every negative radicand,
so root(-8, 3), with odd index 3, raises ValidationError instead of
succeeding. -/
theorem root_negative_odd_index_cex :
    Root.execute (-8) 3
      = .error (.validationError "Cannot calculate root of negative number") := by
  decide

/-- C7 amended: RootOp of logger.py fails exactly when b = 0 or when a < 0
with b an even integer, otherwise returning the pow call pow(a, 1/b); but the
registry Root of operations.py and the Calculation Root dispatch reject every
negative radicand, so for a < 0 and odd b only RootOp succeeds. -/
theorem root_failure_domains (a b : ℚ) :
    (fails (RootOp.execute a b) = true ↔ (b = 0 ∨ (a < 0 ∧ isEvenNumber b = true))) ∧
    (fails (Root.execute a b) = true ↔ (a < 0 ∨ b = 0)) ∧
    (a < 0 → b ≠ 0 → isEvenNumber b = false →
      RootOp.execute a b = .ok (.fpow a (1 / b)) ∧
      Root.execute a b = .error (.validationError "Cannot calculate root of negative number") ∧
      Calculation.calculate "Root" a b
        = .error (.operationError "Cannot calculate root of negative number")) := by
  refine ⟨?_, ?_, ?_⟩
  · unfold RootOp.execute
    split_ifs with h1 h2 <;> simp_all [fails]
  · unfold Root.execute
    split_ifs with h1 h2 <;> simp_all [fails]
  · intro hneg hb heven
    have hnle : ¬ (0 ≤ a) := not_le.mpr hneg
    refine ⟨?_, ?_, ?_⟩
    · simp [RootOp.execute, hb, heven]
    · simp [Root.execute, hneg, hb]
    · simp [Calculation.calculate, raiseInvalidRoot, hnle, hb, hneg]

/-- Witness for C7 amended at a = -8, b = 3. -/
theorem root_failure_domains_witness :
    ((-8 : ℚ) < 0 ∧ (3 : ℚ) ≠ 0 ∧ isEvenNumber 3 = false) ∧
    (RootOp.execute (-8) 3 = .ok (.fpow (-8) (1 / 3)) ∧
     Root.execute (-8) 3 = .error (.validationError "Cannot calculate root of negative number") ∧
     Calculation.calculate "Root" (-8) 3
       = .error (.operationError "Cannot calculate root of negative number")) :=
  ⟨⟨by norm_num, by norm_num, by decide⟩,
   (root_failure_domains (-8) 3).2.2 (by norm_num) (by norm_num) (by decide)⟩

/-- C8 as stated is false: the Calculation Power dispatch rejects every
negative exponent, so power(2, -1), with positive base, raises OperationError
instead of succeeding. -/
theorem power_negative_exponent_cex :
    Calculation.calculate "Power" 2 (-1)
      = .error (.operationError "Negative exponents are not supported") := by
  decide

/-- C8 amended: the registry Power of operations.py fails exactly when a < 0
and b is not an integer, otherwise returning the pow call pow(a, b); but the
Calculation Power dispatch fails with OperationError whenever b < 0 and
succeeds whenever b is nonnegative, so for a > 0 and negative b only the
registry operation succeeds. -/
theorem power_failure_domains (a b : ℚ) :
    (fails (Power.execute a b) = true ↔ (a < 0 ∧ isIntegral b = false)) ∧
    (¬ (a < 0 ∧ isIntegral b = false) → Power.execute a b = .ok (.fpow a b)) ∧
    (0 ≤ b → Calculation.calculate "Power" a b = .ok (.fpow a b)) ∧
    (b < 0 → Calculation.calculate "Power" a b
        = .error (.operationError "Negative exponents are not supported")) := by
  refine ⟨?_, ?_, ?_, ?_⟩
  · unfold Power.execute
    split_ifs with h1 <;> simp_all [fails]
  · intro h
    simp [Power.execute, h]
  · intro h
    simp [Calculation.calculate, h]
  · intro h
    have hnle : ¬ (0 ≤ b) := not_le.mpr h
    simp [Calculation.calculate, hnle]

/-- Witness for C8 amended at a = 9 and negative exponent b = -1/2. -/
theorem power_failure_domains_witness :
    ((-(1 / 2) : ℚ) < 0 ∧
     Power.execute 9 (-(1 / 2)) = .ok (.fpow 9 (-(1 / 2))) ∧
     Calculation.calculate "Power" 9 (-(1 / 2))
       = .error (.operationError "Negative exponents are not supported")) :=
  ⟨by norm_num,
   (power_failure_domains 9 (-(1 / 2))).2.1
     (fun hc => absurd hc.1 (by norm_num)),
   (power_failure_domains 9 (-(1 / 2))).2.2.2 (by norm_num)⟩

/-- C9 as stated is false on the error class: the registry Division of
operations.py raises ValidationError, not OperationError, when the divisor is
zero (exceptions.py defines no ValidationError class at all; its sibling
InputValidationError is not an OperationError). -/
theorem zero_divisor_error_class_cex :
    Division.execute 10 0
      = .error (.validationError "Division by zero is not allowed") := by
  decide

/-- C9 amended: divide, int_divide, modulus and percent with zero second
operand always fail in every variant; the Calculation dispatch and the
logger.py operation classes raise OperationError, while the operations.py
registry classes raise ValidationError. -/
theorem zero_divisor_always_fails (a : ℚ) :
    Division.execute a 0 = .error (.validationError "Division by zero is not allowed") ∧
    IntegerDivision.execute a 0
      = .error (.validationError "Integer division by zero is not allowed") ∧
    Modulus.execute a 0 = .error (.validationError "Modulus by zero is not allowed") ∧
    Percentage.execute a 0
      = .error (.validationError "Cannot calculate percentage with denominator zero") ∧
    DivideOp.execute a 0 = .error (.operationError "Division by zero is not allowed") ∧
    IntDivideOp.execute a 0 = .error (.operationError "Cannot divide by zero") ∧
    ModulusOp.execute a 0 = .error (.operationError "Modulo by zero is invalid") ∧
    PercentOp.execute a 0
      = .error (.operationError "Cannot calculate percentage with denominator zero") ∧
    Calculation.calculate "Division" a 0
      = .error (.operationError "Division by zero is not allowed") ∧
    Calculation.calculate "IntegerDivision" a 0
      = .error (.operationError "Division by zero is not allowed") ∧
    Calculation.calculate "Modulus" a 0
      = .error (.operationError "Division by zero is not allowed") ∧
    Calculation.calculate "Percentage" a 0
      = .error (.operationError "Division by zero is not allowed") := by
  refine ⟨?_, ?_, ?_, ?_, ?_, ?_, ?_, ?_, ?_, ?_, ?_, ?_⟩ <;>
    simp [Division.execute, IntegerDivision.execute, Modulus.execute,
      Percentage.execute, DivideOp.execute, IntDivideOp.execute,
      ModulusOp.execute, PercentOp.execute, Calculation.calculate]

end Midterm
